import Mathlib

/-!
Shallow embedding of the authentication / route-guard logic of the
ai-knowledge-agent front end:

* token decoding and expiry checks of `tokenManager` (src/lib/auth-api.ts),
* the route guard `isValidToken` / `middleware` (src/middleware.ts),
* the React-Query auth state machine (token store + session cache) driven by
  the mutation callbacks (src/hooks/use-auth-queries.ts, useAuth hook),
* the register form validation (src/components/auth/register-form.tsx).

Times are passed explicitly as integer milliseconds since epoch (the value of
JavaScript `Date.now()`).  The composite `JSON.parse(atob(segment))` has no
counterpart in this embedding (neither a base64 decoder nor a JSON parser is
part of the modelled code), so it is passed around as an explicit function
parameter `atobJson : String -> Option JWTPayload`, with `none` modelling a
thrown exception; every theorem quantifies over it.
-/

/-- Decoded JWT claims object (`JWTPayload`): subject id, email and the
optional numeric `exp` claim (seconds since epoch).  `exp := none` models a
JSON object without an `exp` field. -/
structure JWTPayload where
  id : String
  email : String
  exp : Option Int
deriving DecidableEq, Repr

/-- Splitting a character list at every `'.'`, mirroring the JavaScript
`token.split(".")` (which always yields at least one chunk, and yields empty
chunks between adjacent dots). -/
def splitOnDot : List Char → List (List Char)
  | [] => [[]]
  | c :: rest =>
    let r := splitOnDot rest
    if c = '.' then [] :: r
    else
      match r with
      | [] => [[c]]
      | h :: t => (c :: h) :: t

/-- The middle dot-separated segment of a token: `token.split(".")[1]`.
`none` models the JavaScript `undefined` when the token has no dot
(`atob(undefined)` always throws, since the coerced string "undefined" is not
valid base64, so consulting the decoder is unnecessary in that case). -/
def middleSegment (token : String) : Option String :=
  ((splitOnDot token.data).map (fun cs => String.mk cs))[1]?

/-- The claims-decode pipeline `JSON.parse(atob(token.split(".")[1]))` used by
both `tokenManager` and the middleware, with the base64+JSON step supplied as
the parameter `atobJson`. -/
def decodeClaims (atobJson : String → Option JWTPayload) (token : String) :
    Option JWTPayload :=
  (middleSegment token).bind atobJson

/-- Model of `tokenManager.isTokenExpired` (src/lib/auth-api.ts:105-113):
decode the claims, then `payload.exp ? payload.exp < now : false` with
`now = Date.now() / 1000` (not floored); a decode failure is caught and
reported as expired.  The JavaScript truthiness test on `payload.exp` makes a
missing or zero `exp` claim fall to the `false` branch.  The real-number
comparison `exp < nowMs / 1000` is expressed without division as
`exp * 1000 < nowMs`. -/
def isTokenExpired (atobJson : String → Option JWTPayload) (token : String)
    (nowMs : Nat) : Bool :=
  match decodeClaims atobJson token with
  | none => true
  | some payload =>
    match payload.exp with
    | none => false
    | some e => if e = 0 then false else decide (e * 1000 < (nowMs : Int))

/-- Model of `tokenManager.getTokenPayload`: the decoded claims, or `null` on
a decode failure. -/
def getTokenPayload (atobJson : String → Option JWTPayload) (token : String) :
    Option JWTPayload :=
  decodeClaims atobJson token

/-- Model of the middleware helper `isValidToken` (src/middleware.ts:10-24):
`false` for a missing or empty token, `false` on decode failure, and otherwise
`payload.exp && payload.exp > currentTime` with
`currentTime = Math.floor(Date.now() / 1000)` (a falsy `exp` — missing or
zero — yields a falsy result). -/
def isValidToken (atobJson : String → Option JWTPayload)
    (token : Option String) (nowMs : Nat) : Bool :=
  match token with
  | none => false
  | some t =>
    if t = "" then false
    else
      match decodeClaims atobJson t with
      | none => false
      | some payload =>
        match payload.exp with
        | none => false
        | some e =>
          if e = 0 then false else decide (e > ((nowMs / 1000 : Nat) : Int))

/-- JavaScript `||` on nullable strings: an empty string is falsy and falls
through to the right operand. -/
def jsOrString (a b : Option String) : Option String :=
  match a with
  | some s => if s = "" then b else some s
  | none => b

/-- JavaScript `String.prototype.startsWith`. -/
def jsStartsWith (s pre : String) : Bool :=
  pre.data.isPrefixOf s.data

/-- Removal of the first occurrence of a pattern from a character list,
mirroring JavaScript `s.replace(pat, "")` with a string pattern (which
replaces only the first occurrence). -/
def stripFirst (pat : List Char) : List Char → List Char
  | [] => []
  | c :: rest =>
    if pat.isPrefixOf (c :: rest) then (c :: rest).drop pat.length
    else c :: stripFirst pat rest

/-- The middleware's header normalisation: `h.replace("Bearer ", "")`. -/
def stripBearerFirst (s : String) : String :=
  String.mk (stripFirst "Bearer ".data s.data)

/-- The parts of a `NextRequest` the middleware reads: the path, whether the
query string has a `code` parameter, the `auth_token` cookie value, and the
`authorization` header. -/
structure Request where
  pathname : String
  hasCode : Bool
  cookieToken : Option String
  authHeader : Option String
deriving DecidableEq, Repr

/-- The middleware's token extraction (src/middleware.ts:30-32):
`cookies.get("auth_token")?.value || headers.get("authorization")?.replace("Bearer ", "")`. -/
def requestToken (r : Request) : Option String :=
  jsOrString r.cookieToken (r.authHeader.map stripBearerFirst)

/-- Route lists from src/middleware.ts:5-7. -/
def protectedRoutes : List String := ["/dashboard", "/profile"]

/-- Public route list (declared in the source; not consulted by the
middleware's branching). -/
def publicRoutes : List String := ["/auth/signin", "/auth/signup", "/auth/callback"]

/-- Auth-entry route list from src/middleware.ts:7. -/
def authRoutes : List String := ["/auth/signin", "/auth/signup"]

/-- Outcome of the middleware: a redirect to `path` (with an optional
`callbackUrl` query parameter) or `NextResponse.next()`. -/
inductive MiddlewareResult where
  | redirect (path : String) (callbackUrl : Option String)
  | next
deriving DecidableEq, Repr

/-- Model of `middleware` (src/middleware.ts:26-66): the three sequential
early-return checks.  The final two source branches (the `/auth/callback`
check and the fall-through) both return `NextResponse.next()` and are
collapsed into the `else`. -/
def middleware (atobJson : String → Option JWTPayload) (r : Request)
    (nowMs : Nat) : MiddlewareResult :=
  let token := requestToken r
  let isAuthed := isValidToken atobJson token nowMs
  let isOAuthCallback := r.hasCode
  if (protectedRoutes.any fun route => jsStartsWith r.pathname route) &&
      (!isAuthed && !isOAuthCallback) then
    .redirect "/auth/signin" (some r.pathname)
  else if (authRoutes.any fun route => jsStartsWith r.pathname route) &&
      isAuthed then
    .redirect "/dashboard" none
  else
    .next

/-- Identity provider tag: `"email" | "google"`. -/
inductive Provider where
  | email
  | google
deriving DecidableEq, Repr

/-- The user profile (`Identity`): the fields of the `user` object in
`AuthResponse` / `UserResponse` that the modelled code constructs or caches. -/
structure Identity where
  id : String
  email : String
  name : String
  provider : Provider
  avatar : Option String
  emailVerified : Bool
  createdAt : String
  updatedAt : String
deriving DecidableEq, Repr

/-- Client-side auth state: the two token mediums written by `tokenManager`
(localStorage and the `auth_token` cookie) and the React-Query cache entry
under the auth user key.  `userEntry = none` models an absent cache entry,
`some none` an entry explicitly set to `null`, `some (some u)` a cached
Identity. -/
structure AuthClientState where
  localToken : Option String
  cookieToken : Option String
  userEntry : Option (Option Identity)
deriving DecidableEq, Repr

/-- Model of `tokenManager.getToken`:
`localStorage.getItem("auth_token") || getCookie("auth_token")` (an empty
string is falsy and falls through to the cookie). -/
def tokenManagerGetToken (s : AuthClientState) : Option String :=
  jsOrString s.localToken s.cookieToken

/-- Model of `tokenManager.setToken`: writes the token to both mediums. -/
def tokenManagerSetToken (t : String) (s : AuthClientState) : AuthClientState :=
  { s with localToken := some t, cookieToken := some t }

/-- Model of `tokenManager.removeToken`: clears both mediums. -/
def tokenManagerRemoveToken (s : AuthClientState) : AuthClientState :=
  { s with localToken := none, cookieToken := none }

/-- Model of `isAuthenticated` (src/lib/auth-api.ts:222-225):
`token !== null && !tokenManager.isTokenExpired(token)`. -/
def checkIsAuthenticated (atobJson : String → Option JWTPayload)
    (s : AuthClientState) (nowMs : Nat) : Bool :=
  match tokenManagerGetToken s with
  | none => false
  | some t => !(isTokenExpired atobJson t nowMs)

/-- Model of `getCurrentUserFromToken` (src/lib/auth-api.ts:228-234):
`null` when the token is missing, falsy or expired, otherwise the decoded
payload (`null` on decode failure). -/
def getCurrentUserFromToken (atobJson : String → Option JWTPayload)
    (s : AuthClientState) (nowMs : Nat) : Option JWTPayload :=
  match tokenManagerGetToken s with
  | none => none
  | some t =>
    if t = "" then none
    else if isTokenExpired atobJson t nowMs then none
    else getTokenPayload atobJson t

/-- The spec-level value of the session cache entry — "the current Identity or
null".  An absent React-Query entry and an entry set to `null` both read back
as no Identity. -/
def sessionCacheValue (s : AuthClientState) : Option Identity :=
  match s.userEntry with
  | some (some u) => some u
  | _ => none

/-- Whether the remote `/auth/logout` request succeeded. -/
inductive RemoteOutcome where
  | ok
  | fail
deriving DecidableEq, Repr

/-- Model of `authApi.logout` (src/lib/auth-api.ts:176-188): the remote call
sits in a `try` whose `catch` only logs, and the `finally` removes the token —
in both outcomes the local store is cleared and no error escapes. -/
def authApiLogout (outcome : RemoteOutcome) (s : AuthClientState) :
    AuthClientState :=
  match outcome with
  | .ok => tokenManagerRemoveToken s
  | .fail => tokenManagerRemoveToken s

/-- Model of one run of the logout mutation
(src/hooks/use-auth-queries.ts:72-90, identically the useAuth hook): the
mutation function `authApi.logout`, then the `onSuccess`/`onError` callback —
both remove the token, set the user cache entry to `null`, and then
`queryClient.clear()` removes every cache entry. -/
def logoutMutationRun (outcome : RemoteOutcome) (s : AuthClientState) :
    AuthClientState :=
  let s1 := authApiLogout outcome s
  let s2 := tokenManagerRemoveToken s1
  let s3 := { s2 with userEntry := some none }
  { s3 with userEntry := none }

/-- Model of the login mutation `onSuccess` in the useAuth hook: store the
returned token and seed the user cache entry with the returned user
(`invalidateQueries` marks the entry stale without changing its data). -/
def loginMutationSuccess (t : String) (u : Identity) (s : AuthClientState) :
    AuthClientState :=
  let s1 := tokenManagerSetToken t s
  { s1 with userEntry := some (some u) }

/-- Model of the login mutation `onError` in the useAuth hook: it only removes
the token (the user cache entry is left untouched). -/
def loginMutationError (s : AuthClientState) : AuthClientState :=
  tokenManagerRemoveToken s

/-- Model of the register mutation `onSuccess` in the useAuth hook (same body
as the login one). -/
def registerMutationSuccess (t : String) (u : Identity)
    (s : AuthClientState) : AuthClientState :=
  let s1 := tokenManagerSetToken t s
  { s1 with userEntry := some (some u) }

/-- Model of the Google OAuth mutation `onSuccess` in the useAuth hook (same
body as the login one). -/
def googleAuthMutationSuccess (t : String) (u : Identity)
    (s : AuthClientState) : AuthClientState :=
  let s1 := tokenManagerSetToken t s
  { s1 with userEntry := some (some u) }

/-- Model of the 401 handling: the `authApiClient` response interceptor
(src/lib/auth-api.ts:142-153) removes the token and dispatches `auth:logout`,
whose handler in the useAuth hook sets the user entry to `null` and then
clears the whole cache. -/
def authLogoutEventStep (s : AuthClientState) : AuthClientState :=
  let s1 := tokenManagerRemoveToken s
  let s2 := { s1 with userEntry := some none }
  { s2 with userEntry := none }

/-- Model of `checkTokenValidity` in the useAuth hook (expiry detection, run
on mount and every minute): when `isAuthenticated()` is false the user entry
is set to `null`, otherwise nothing changes. -/
def checkTokenValidityStep (atobJson : String → Option JWTPayload)
    (nowMs : Nat) (s : AuthClientState) : AuthClientState :=
  if checkIsAuthenticated atobJson s nowMs then s
  else { s with userEntry := some none }

/-- The session-cache invariant stated by the spec: the entry under the auth
user key holds an Identity only while a non-expired credential exists in the
token store. -/
def sessionInvariant (atobJson : String → Option JWTPayload)
    (s : AuthClientState) (nowMs : Nat) : Prop :=
  (sessionCacheValue s).isSome = true →
    checkIsAuthenticated atobJson s nowMs = true

instance (atobJson : String → Option JWTPayload) (s : AuthClientState)
    (nowMs : Nat) : Decidable (sessionInvariant atobJson s nowMs) := by
  unfold sessionInvariant; infer_instance

/-- Model of the `queryFn` of the user query in the useAuth hook (the session
query): `null` when not authenticated; on a successful fetch, the fetched
Identity; on a fetch failure, the minimal Identity synthesized from the
token's own claims when `getCurrentUserFromToken` yields them, otherwise the
error is rethrown.  `nowIso` stands for `new Date().toISOString()`. -/
def useAuthUserQueryFn {ε : Type} (atobJson : String → Option JWTPayload)
    (s : AuthClientState) (nowMs : Nat) (nowIso : String)
    (fetchResult : Except ε Identity) : Except ε (Option Identity) :=
  if checkIsAuthenticated atobJson s nowMs = false then .ok none
  else
    match fetchResult with
    | .ok u => .ok (some u)
    | .error e =>
      match getCurrentUserFromToken atobJson s nowMs with
      | some p =>
        .ok (some { id := p.id, email := p.email, name := p.email,
                    provider := .email, avatar := none,
                    emailVerified := false, createdAt := nowIso,
                    updatedAt := nowIso })
      | none => .error e

/-- The shape of an axios error as consulted by the retry policy:
`error?.response?.status`, with `none` modelling a missing response or
status. -/
structure QueryError where
  status : Option Nat
deriving DecidableEq, Repr

/-- Model of the `retry` predicate of the current-user query
(src/hooks/use-auth-queries.ts:23-29, identically the useAuth hook): never on
status 401, otherwise while fewer than 2 failures have occurred. -/
def currentUserRetry (failureCount : Nat) (e : QueryError) : Bool :=
  if e.status = some 401 then false else decide (failureCount < 2)

/-- The register form's four fields (`RegisterFormData`). -/
structure RegisterFormData where
  name : String
  email : String
  password : String
  confirmPassword : String
deriving DecidableEq, Repr

/-- ASCII whitespace, the relevant fragment of the JavaScript character class
used by the regex in the form's email check (the full class also contains
Unicode spaces; the modelled inputs are ASCII). -/
def isSpaceJs (c : Char) : Bool :=
  c = ' ' || c = '\t' || c = '\n' || c = '\r' || c = '\x0b' || c = '\x0c'

/-- Search semantics of the form's email format test: the string contains a
match of the pattern "one or more non-space, '@', one or more non-space, '.',
one or more non-space" — equivalently, there are positions `a < b` holding
'@' and '.' such that the character just before the '@', every character
strictly between '@' and '.', and the character just after the '.' are all
non-space, with at least one character between '@' and '.'. -/
def emailPatternTest (s : String) : Bool :=
  let cs := s.data
  let n := cs.length
  (List.range n).any fun a =>
    (List.range n).any fun b =>
      decide (1 ≤ a) && decide (a + 2 ≤ b) && decide (b + 1 < n) &&
      (cs.getD a ' ' = '@') && (cs.getD b ' ' = '.') &&
      !isSpaceJs (cs.getD (a - 1) ' ') &&
      ((List.range' (a + 1) (b - (a + 1))).all fun i =>
        !isSpaceJs (cs.getD i ' ')) &&
      !isSpaceJs (cs.getD (b + 1) ' ')

/-- The per-field error messages accumulated by `validateForm`
(src/components/auth/register-form.tsx:35-66); `none` means the field
produced no error. -/
structure RegisterFormErrors where
  name : Option String
  email : Option String
  password : Option String
  confirmPassword : Option String
deriving DecidableEq, Repr

/-- Model of the error-object construction in `validateForm`. -/
def validateFormErrors (d : RegisterFormData) : RegisterFormErrors where
  name :=
    if d.name = "" then some "Name is required"
    else if d.name.length < 2 then some "Name must be at least 2 characters"
    else none
  email :=
    if d.email = "" then some "Email is required"
    else if !emailPatternTest d.email then some "Email is invalid"
    else none
  password :=
    if d.password = "" then some "Password is required"
    else if d.password.length < 8 then
      some "Password must be at least 8 characters"
    else if !(d.password.data.any Char.isLower &&
              d.password.data.any Char.isUpper &&
              d.password.data.any Char.isDigit) then
      some "Password must contain at least one uppercase letter, one lowercase letter, and one number"
    else none
  confirmPassword :=
    if d.confirmPassword = "" then some "Please confirm your password"
    else if d.password ≠ d.confirmPassword then some "Passwords do not match"
    else none

/-- Model of the boolean result of `validateForm`:
`Object.keys(errors).length === 0`. -/
def validateForm (d : RegisterFormData) : Bool :=
  let errs := validateFormErrors d
  errs.name = none && errs.email = none && errs.password = none &&
    errs.confirmPassword = none

/-- What `handleSubmit` does with the network: nothing, or one register call
with the submitted name, email and password. -/
inductive SubmitAction where
  | noRequest
  | registerCall (name email password : String)
deriving DecidableEq, Repr

/-- Model of `handleSubmit` (src/components/auth/register-form.tsx:68-90): an
early return when `validateForm()` fails, otherwise the register mutation is
invoked with the form's name, email and password. -/
def handleSubmit (d : RegisterFormData) : SubmitAction :=
  if validateForm d then .registerCall d.name d.email d.password
  else .noRequest

/-- Concrete claims decoder used by witnesses and counterexamples: three
decodable middle segments ("P" with expiry 100 s, "Q" with a far-future
expiry, "R" with no exp claim); everything else fails to decode. -/
def atobFix : String → Option JWTPayload := fun s =>
  if s = "P" then some { id := "u1", email := "u1@x.co", exp := some 100 }
  else if s = "Q" then
    some { id := "u1", email := "u1@x.co", exp := some 4000000000 }
  else if s = "R" then some { id := "u1", email := "u1@x.co", exp := none }
  else none

/-- Concrete cached identity for witnesses. -/
def userFix : Identity :=
  { id := "u1", email := "u1@x.co", name := "User One", provider := .email,
    avatar := none, emailVerified := false, createdAt := "t0",
    updatedAt := "t0" }

/-- Concrete client state for witnesses: an unexpired token in both mediums
and a cached identity. -/
def stateFix : AuthClientState :=
  { localToken := some "h.Q.s", cookieToken := some "h.Q.s",
    userEntry := some (some userFix) }

/-- Two lists that are prefixes of the same list are comparable, so a prefix
of `s` that is incomparable with `p` rules out `p` being a prefix of `s`. -/
theorem prefix_excl {p q s : List Char} (hp : p.isPrefixOf s = true)
    (hpq : p.isPrefixOf q = false) (hqp : q.isPrefixOf p = false) :
    q.isPrefixOf s = false := by
  by_contra hq
  rw [Bool.not_eq_false] at hq
  rw [List.isPrefixOf_iff_prefix] at hp hq
  rcases List.prefix_or_prefix_of_prefix hp hq with hc | hc
  · rw [← List.isPrefixOf_iff_prefix] at hc
    simp [hc] at hpq
  · rw [← List.isPrefixOf_iff_prefix] at hc
    simp [hc] at hqp

/-- C1 counterexample: a decodable token whose expiry claim (100 s) equals
the current instant (100000 ms, i.e. 100 s) is NOT reported expired by
`tokenManager.isTokenExpired` — the source compares with strict `<`, so the
claimed behaviour at "expiry ≤ current time" fails at equality. -/
theorem isTokenExpired_false_at_equal_expiry :
    decodeClaims atobFix "h.P.s" =
      some { id := "u1", email := "u1@x.co", exp := some 100 } ∧
    (100 : Int) * 1000 ≤ (100000 : Int) ∧
    isTokenExpired atobFix "h.P.s" 100000 = false := by
  decide

/-- C1 (amended): for every token whose claims decode with a truthy (present,
nonzero) expiry claim `e`, `tokenManager.isTokenExpired` returns true exactly
when `e` is strictly below the current time (`e` seconds < `nowMs`
milliseconds); in particular a token whose expiry equals the current instant
is reported NOT expired, and one with expiry strictly above the current time
is reported not expired as the original claim states. -/
theorem isTokenExpired_iff_exp_lt_now :
    ∀ (atobJson : String → Option JWTPayload) (token : String) (nowMs : Nat)
      (p : JWTPayload) (e : Int),
      decodeClaims atobJson token = some p → p.exp = some e → e ≠ 0 →
      (isTokenExpired atobJson token nowMs = true ↔ e * 1000 < (nowMs : Int)) := by
  intro a t n p e hdec hexp he0
  simp [isTokenExpired, hdec, hexp, he0]

/-- Witness for the amended C1 at the boundary and just past it. -/
theorem isTokenExpired_iff_exp_lt_now_witness :
    isTokenExpired atobFix "h.P.s" 100000 = false ∧
    isTokenExpired atobFix "h.P.s" 100001 = true := by
  constructor
  · have h := isTokenExpired_iff_exp_lt_now atobFix "h.P.s" 100000
      { id := "u1", email := "u1@x.co", exp := some 100 } 100 (by decide) rfl
      (by decide)
    cases hb : isTokenExpired atobFix "h.P.s" 100000
    · rfl
    · exact absurd (h.mp hb) (by decide)
  · exact (isTokenExpired_iff_exp_lt_now atobFix "h.P.s" 100001
      { id := "u1", email := "u1@x.co", exp := some 100 } 100 (by decide) rfl
      (by decide)).mpr (by decide)

/-- C2: every token whose middle dot-separated segment fails to decode
(including tokens with no dot at all, whose middle segment is absent) is
reported expired by `tokenManager.isTokenExpired`. -/
theorem isTokenExpired_of_decode_failure :
    ∀ (atobJson : String → Option JWTPayload) (token : String) (nowMs : Nat),
      decodeClaims atobJson token = none →
      isTokenExpired atobJson token nowMs = true := by
  intro a t n h
  simp [isTokenExpired, h]

/-- Witness for C2 at a dotless token. -/
theorem isTokenExpired_of_decode_failure_witness :
    isTokenExpired atobFix "nodot" 0 = true :=
  isTokenExpired_of_decode_failure atobFix "nodot" 0 (by decide)

/-- C10: a token whose claims decode to an object with no `exp` field is
reported not expired by `tokenManager.isTokenExpired` (the client treats it
as valid), while the middleware's `isValidToken` reports the same token
invalid — the two checks disagree on exp-less tokens. -/
theorem expless_token_disagreement :
    ∀ (atobJson : String → Option JWTPayload) (token : String) (nowMs : Nat)
      (p : JWTPayload),
      decodeClaims atobJson token = some p → p.exp = none →
      isTokenExpired atobJson token nowMs = false ∧
      isValidToken atobJson (some token) nowMs = false := by
  intro a t n p hdec hexp
  have ht : t ≠ "" := by
    intro h
    subst h
    exact Option.noConfusion
      ((rfl : (none : Option JWTPayload) = decodeClaims a "").trans hdec)
  constructor
  · simp [isTokenExpired, hdec, hexp]
  · simp [isValidToken, ht, hdec, hexp]

/-- Witness for C10 on a concrete exp-less token. -/
theorem expless_token_disagreement_witness :
    isTokenExpired atobFix "h.R.s" 0 = false ∧
    isValidToken atobFix (some "h.R.s") 0 = false :=
  expless_token_disagreement atobFix "h.R.s" 0
    { id := "u1", email := "u1@x.co", exp := none } (by decide) rfl

/-- C3: on a path starting with /dashboard or /profile, a request with no
valid credential and no OAuth code parameter is redirected to /auth/signin
with callbackUrl set to the original path, and a request with a valid
credential is passed through (no redirect). -/
theorem middleware_protected_routes :
    ∀ (atobJson : String → Option JWTPayload) (r : Request) (nowMs : Nat),
      (jsStartsWith r.pathname "/dashboard" ||
        jsStartsWith r.pathname "/profile") = true →
      (isValidToken atobJson (requestToken r) nowMs = false →
        r.hasCode = false →
        middleware atobJson r nowMs =
          .redirect "/auth/signin" (some r.pathname)) ∧
      (isValidToken atobJson (requestToken r) nowMs = true →
        middleware atobJson r nowMs = .next) := by
  intro a r n hpath
  constructor
  · intro hval hcode
    simp only [middleware, protectedRoutes, List.any_cons, List.any_nil,
      Bool.or_false, hval, hcode, Bool.not_false, Bool.and_true]
    rw [hpath]
    simp
  · intro hval
    have hs1 : jsStartsWith r.pathname "/auth/signin" = false := by
      rcases Bool.or_eq_true _ _ |>.mp hpath with hd | hd
      · exact prefix_excl hd (by decide) (by decide)
      · exact prefix_excl hd (by decide) (by decide)
    have hs2 : jsStartsWith r.pathname "/auth/signup" = false := by
      rcases Bool.or_eq_true _ _ |>.mp hpath with hd | hd
      · exact prefix_excl hd (by decide) (by decide)
      · exact prefix_excl hd (by decide) (by decide)
    simp [middleware, protectedRoutes, authRoutes, hval, hs1, hs2]

/-- Witness for C3: a credential-less request to a protected path is
redirected with its path as callbackUrl. -/
theorem middleware_protected_routes_witness :
    middleware atobFix
      { pathname := "/dashboard/files", hasCode := false,
        cookieToken := none, authHeader := none } 0 =
      .redirect "/auth/signin" (some "/dashboard/files") :=
  (middleware_protected_routes atobFix
    { pathname := "/dashboard/files", hasCode := false, cookieToken := none,
      authHeader := none } 0 (by decide)).1 (by decide) rfl

/-- C4: a request to /auth/signin or /auth/signup with a valid credential is
redirected to /dashboard, and a request whose path starts with
/auth/callback is always passed through, regardless of credential. -/
theorem middleware_auth_routes_and_callback :
    ∀ (atobJson : String → Option JWTPayload) (r : Request) (nowMs : Nat),
      ((jsStartsWith r.pathname "/auth/signin" ||
          jsStartsWith r.pathname "/auth/signup") = true →
        isValidToken atobJson (requestToken r) nowMs = true →
        middleware atobJson r nowMs = .redirect "/dashboard" none) ∧
      (jsStartsWith r.pathname "/auth/callback" = true →
        middleware atobJson r nowMs = .next) := by
  intro a r n
  constructor
  · intro hpath hval
    simp only [middleware, authRoutes, List.any_cons, List.any_nil,
      Bool.or_false, hval, Bool.not_true, Bool.false_and, Bool.and_false]
    rw [hpath]
    simp
  · intro hcb
    have h1 : jsStartsWith r.pathname "/dashboard" = false :=
      prefix_excl hcb (by decide) (by decide)
    have h2 : jsStartsWith r.pathname "/profile" = false :=
      prefix_excl hcb (by decide) (by decide)
    have h3 : jsStartsWith r.pathname "/auth/signin" = false :=
      prefix_excl hcb (by decide) (by decide)
    have h4 : jsStartsWith r.pathname "/auth/signup" = false :=
      prefix_excl hcb (by decide) (by decide)
    simp [middleware, protectedRoutes, authRoutes, h1, h2, h3, h4]

/-- Witness for C4: an authenticated request to the sign-in page is
redirected to the dashboard. -/
theorem middleware_auth_routes_and_callback_witness :
    middleware atobFix
      { pathname := "/auth/signin", hasCode := false,
        cookieToken := some "h.Q.s", authHeader := none } 1000000 =
      .redirect "/dashboard" none :=
  (middleware_auth_routes_and_callback atobFix
    { pathname := "/auth/signin", hasCode := false,
      cookieToken := some "h.Q.s", authHeader := none } 1000000).1
    (by decide) (by decide)

/-- C5: a run of the logout mutation, whatever the remote outcome, leaves
both token mediums empty and the session cache holding no Identity (the
callbacks set the user entry to null and the subsequent cache-wide clear
removes it; either way the cache's Identity-or-null value is null). -/
theorem logout_clears_token_and_session :
    ∀ (outcome : RemoteOutcome) (s : AuthClientState),
      (logoutMutationRun outcome s).localToken = none ∧
      (logoutMutationRun outcome s).cookieToken = none ∧
      sessionCacheValue (logoutMutationRun outcome s) = none := by
  intro o s
  cases o <;>
    simp [logoutMutationRun, authApiLogout, tokenManagerRemoveToken,
      sessionCacheValue]

/-- C6 counterexample: from a state with a valid token and a cached identity
(which satisfies the session invariant), a failed login removes the token but
leaves the cached identity in place, violating the invariant that the cache
is non-null only while a non-expired credential exists. -/
theorem session_invariant_not_preserved_cex :
    sessionInvariant atobFix stateFix 1000000 ∧
    ¬ sessionInvariant atobFix (loginMutationError stateFix) 1000000 := by
  decide

/-- C6 (amended): the clearing operations — logout, 401 handling and the
periodic expiry check — each establish the session invariant from any state,
and a successful login/register/OAuth exchange establishes it provided the
stored token is unexpired; the failed-mutation paths are excluded, since they
remove the credential without clearing the cache. -/
theorem session_invariant_clearing_ops :
    ∀ (atobJson : String → Option JWTPayload) (nowMs : Nat)
      (s : AuthClientState) (outcome : RemoteOutcome) (t : String)
      (u : Identity),
      sessionInvariant atobJson (logoutMutationRun outcome s) nowMs ∧
      sessionInvariant atobJson (authLogoutEventStep s) nowMs ∧
      sessionInvariant atobJson (checkTokenValidityStep atobJson nowMs s) nowMs ∧
      (isTokenExpired atobJson t nowMs = false →
        sessionInvariant atobJson (loginMutationSuccess t u s) nowMs) ∧
      (isTokenExpired atobJson t nowMs = false →
        sessionInvariant atobJson (registerMutationSuccess t u s) nowMs) ∧
      (isTokenExpired atobJson t nowMs = false →
        sessionInvariant atobJson (googleAuthMutationSuccess t u s) nowMs) := by
  intro a n s o t u
  refine ⟨?_, ?_, ?_, ?_, ?_, ?_⟩
  · intro h
    cases o <;>
      simp [logoutMutationRun, authApiLogout, tokenManagerRemoveToken,
        sessionCacheValue] at h
  · intro h
    simp [authLogoutEventStep, tokenManagerRemoveToken, sessionCacheValue] at h
  · by_cases hc : checkIsAuthenticated a s n
    · intro _
      simp [checkTokenValidityStep, hc]
    · intro h
      simp [checkTokenValidityStep, hc, sessionCacheValue] at h
  · intro hexp _
    show checkIsAuthenticated a (loginMutationSuccess t u s) n = true
    unfold loginMutationSuccess checkIsAuthenticated
    rw [show tokenManagerGetToken
        { tokenManagerSetToken t s with userEntry := some (some u) } =
        some t from by
      unfold tokenManagerGetToken tokenManagerSetToken jsOrString
      by_cases ht : t = "" <;> simp [ht]]
    simp [hexp]
  · intro hexp _
    show checkIsAuthenticated a (registerMutationSuccess t u s) n = true
    unfold registerMutationSuccess checkIsAuthenticated
    rw [show tokenManagerGetToken
        { tokenManagerSetToken t s with userEntry := some (some u) } =
        some t from by
      unfold tokenManagerGetToken tokenManagerSetToken jsOrString
      by_cases ht : t = "" <;> simp [ht]]
    simp [hexp]
  · intro hexp _
    show checkIsAuthenticated a (googleAuthMutationSuccess t u s) n = true
    unfold googleAuthMutationSuccess checkIsAuthenticated
    rw [show tokenManagerGetToken
        { tokenManagerSetToken t s with userEntry := some (some u) } =
        some t from by
      unfold tokenManagerGetToken tokenManagerSetToken jsOrString
      by_cases ht : t = "" <;> simp [ht]]
    simp [hexp]

/-- Witness for the amended C6: a successful login with an unexpired token
establishes the invariant at a concrete state. -/
theorem session_invariant_clearing_ops_witness :
    sessionInvariant atobFix
      (loginMutationSuccess "h.Q.s" userFix stateFix) 1000000 :=
  (session_invariant_clearing_ops atobFix 1000000 stateFix .ok "h.Q.s"
    userFix).2.2.2.1 (by decide)

/-- C7: the current-user query's retry predicate never retries an error whose
response status is 401, and for every other error it retries exactly while
fewer than 2 failures have occurred. -/
theorem currentUserRetry_spec :
    ∀ (failureCount : Nat) (e : QueryError),
      (e.status = some 401 → currentUserRetry failureCount e = false) ∧
      (e.status ≠ some 401 →
        (currentUserRetry failureCount e = true ↔ failureCount < 2)) := by
  intro n e
  constructor
  · intro h
    simp [currentUserRetry, h]
  · intro h
    simp [currentUserRetry, h]

/-- Witness for C7 at a 401 error and a 500 error. -/
theorem currentUserRetry_spec_witness :
    currentUserRetry 0 { status := some 401 } = false ∧
    currentUserRetry 1 { status := some 500 } = true := by
  constructor
  · exact (currentUserRetry_spec 0 { status := some 401 }).1 rfl
  · exact ((currentUserRetry_spec 1 { status := some 500 }).2
      (by decide)).mpr (by decide)

/-- C8: whenever the remote current-user fetch fails while the store is
authenticated (a non-expired credential is held — which forces its claims to
decode, since a decode failure would have made it count as expired), the
session query's queryFn returns the minimal Identity synthesized from the
token claims: id and email from the token, name falling back to the email,
provider "email", emailVerified false; the failure is not propagated. -/
theorem useAuth_queryFn_token_fallback :
    ∀ {ε : Type} (atobJson : String → Option JWTPayload)
      (s : AuthClientState) (nowMs : Nat) (nowIso : String) (e : ε),
      checkIsAuthenticated atobJson s nowMs = true →
      ∃ t p, tokenManagerGetToken s = some t ∧
        decodeClaims atobJson t = some p ∧
        useAuthUserQueryFn atobJson s nowMs nowIso (Except.error e) =
          Except.ok (some { id := p.id, email := p.email, name := p.email,
                            provider := Provider.email, avatar := none,
                            emailVerified := false, createdAt := nowIso,
                            updatedAt := nowIso }) := by
  intro ε a s n iso e hauth
  have hauth' := hauth
  unfold checkIsAuthenticated at hauth'
  cases hg : tokenManagerGetToken s with
  | none =>
    rw [hg] at hauth'
    simp at hauth'
  | some t =>
    rw [hg] at hauth'
    simp only [Bool.not_eq_true'] at hauth'
    have hexp : isTokenExpired a t n = false := hauth'
    have hdec : ∃ p, decodeClaims a t = some p := by
      cases hd : decodeClaims a t with
      | none =>
        exfalso
        unfold isTokenExpired at hexp
        rw [hd] at hexp
        simp at hexp
      | some p => exact ⟨p, rfl⟩
    obtain ⟨p, hp⟩ := hdec
    have ht : t ≠ "" := by
      intro h
      subst h
      exact Option.noConfusion
        ((rfl : (none : Option JWTPayload) = decodeClaims a "").trans hp)
    refine ⟨t, p, rfl, hp, ?_⟩
    unfold useAuthUserQueryFn
    rw [hauth]
    simp only [Bool.true_eq_false, if_false]
    simp [getCurrentUserFromToken, hg, ht, hexp, getTokenPayload, hp]

/-- Witness for C8 at a concrete authenticated state with a failing fetch. -/
theorem useAuth_queryFn_token_fallback_witness :
    useAuthUserQueryFn atobFix stateFix 1000000 "iso0"
        (Except.error "boom") =
      Except.ok (some { id := "u1", email := "u1@x.co", name := "u1@x.co",
                        provider := Provider.email, avatar := none,
                        emailVerified := false, createdAt := "iso0",
                        updatedAt := "iso0" }) := by
  obtain ⟨t, p, hg, hp, hres⟩ :=
    useAuth_queryFn_token_fallback atobFix stateFix 1000000 "iso0" "boom"
      (by decide)
  have h1 : t = "h.Q.s" := by
    have hc : tokenManagerGetToken stateFix = some "h.Q.s" := by decide
    rw [hc] at hg
    exact (Option.some.inj hg).symm
  subst h1
  have h2 : p = { id := "u1", email := "u1@x.co", exp := some 4000000000 } := by
    have hc : decodeClaims atobFix "h.Q.s" =
        some { id := "u1", email := "u1@x.co", exp := some 4000000000 } := by
      decide
    rw [hc] at hp
    exact (Option.some.inj hp).symm
  subst h2
  exact hres

/-- C9: the register form's submit handler invokes the register mutation
(with the form's name, email and password) exactly when every field passes
the client-side validation — nonempty name of length at least 2, email
matching the format pattern, password of length at least 8 containing a
lowercase letter, an uppercase letter and a digit, and a nonempty matching
confirmation; otherwise no network request is made. -/
theorem register_submit_iff_valid :
    ∀ d : RegisterFormData,
      handleSubmit d = SubmitAction.registerCall d.name d.email d.password ↔
        (d.name ≠ "" ∧ 2 ≤ d.name.length ∧ d.email ≠ "" ∧
          emailPatternTest d.email = true ∧ d.password ≠ "" ∧
          8 ≤ d.password.length ∧ d.password.data.any Char.isLower = true ∧
          d.password.data.any Char.isUpper = true ∧
          d.password.data.any Char.isDigit = true ∧
          d.confirmPassword ≠ "" ∧ d.password = d.confirmPassword) := by
  intro d
  have hname : (validateFormErrors d).name = none ↔
      (d.name ≠ "" ∧ 2 ≤ d.name.length) := by
    simp only [validateFormErrors]
    constructor
    · intro h
      split_ifs at h with h1 h2
      exact ⟨h1, by omega⟩
    · intro ⟨n1, n2⟩
      rw [if_neg n1, if_neg (by omega)]
  have hemail : (validateFormErrors d).email = none ↔
      (d.email ≠ "" ∧ emailPatternTest d.email = true) := by
    simp only [validateFormErrors]
    constructor
    · intro h
      split_ifs at h with h1 h2
      exact ⟨h1, by simpa using h2⟩
    · intro ⟨e1, e2⟩
      rw [if_neg e1, if_neg (by simp [e2])]
  have hpass : (validateFormErrors d).password = none ↔
      (d.password ≠ "" ∧ 8 ≤ d.password.length ∧
        d.password.data.any Char.isLower = true ∧
        d.password.data.any Char.isUpper = true ∧
        d.password.data.any Char.isDigit = true) := by
    simp only [validateFormErrors]
    constructor
    · intro h
      split_ifs at h with h1 h2 h3
      have h3' : (d.password.data.any Char.isLower &&
            d.password.data.any Char.isUpper &&
            d.password.data.any Char.isDigit) = true := by
        simpa using h3
      obtain ⟨⟨p3, p4⟩, p5⟩ :
          (d.password.data.any Char.isLower = true ∧
            d.password.data.any Char.isUpper = true) ∧
            d.password.data.any Char.isDigit = true := by
        simpa [Bool.and_eq_true] using h3'
      exact ⟨h1, by omega, p3, p4, p5⟩
    · intro ⟨p1, p2, p3, p4, p5⟩
      rw [if_neg p1, if_neg (by omega), if_neg (by simp [p3, p4, p5])]
  have hconf : (validateFormErrors d).confirmPassword = none ↔
      (d.confirmPassword ≠ "" ∧ d.password = d.confirmPassword) := by
    simp only [validateFormErrors]
    constructor
    · intro h
      split_ifs at h with h1 h2
      exact ⟨h1, by simpa using h2⟩
    · intro ⟨c1, c2⟩
      rw [if_neg c1, if_neg (by simp [c2])]
  have hv : validateForm d = true ↔
      ((validateFormErrors d).name = none ∧
        (validateFormErrors d).email = none ∧
        (validateFormErrors d).password = none ∧
        (validateFormErrors d).confirmPassword = none) := by
    unfold validateForm
    simp [Bool.and_eq_true, and_assoc]
  constructor
  · intro h
    have hvt : validateForm d = true := by
      by_contra hnv
      rw [Bool.not_eq_true] at hnv
      unfold handleSubmit at h
      rw [hnv] at h
      simp at h
    obtain ⟨h1, h2, h3, h4⟩ := hv.mp hvt
    obtain ⟨n1, n2⟩ := hname.mp h1
    obtain ⟨e1, e2⟩ := hemail.mp h2
    obtain ⟨p1, p2, p3, p4, p5⟩ := hpass.mp h3
    obtain ⟨c1, c2⟩ := hconf.mp h4
    exact ⟨n1, n2, e1, e2, p1, p2, p3, p4, p5, c1, c2⟩
  · intro ⟨n1, n2, e1, e2, p1, p2, p3, p4, p5, c1, c2⟩
    have hvt : validateForm d = true :=
      hv.mpr ⟨hname.mpr ⟨n1, n2⟩, hemail.mpr ⟨e1, e2⟩,
        hpass.mpr ⟨p1, p2, p3, p4, p5⟩, hconf.mpr ⟨c1, c2⟩⟩
    unfold handleSubmit
    rw [hvt]
    simp

/-- Witness for C9: a fully valid form reaches the register call. -/
theorem register_submit_iff_valid_witness :
    handleSubmit { name := "Jo", email := "a@b.co", password := "Passw0rd",
                   confirmPassword := "Passw0rd" } =
      SubmitAction.registerCall "Jo" "a@b.co" "Passw0rd" :=
  (register_submit_iff_valid
    { name := "Jo", email := "a@b.co", password := "Passw0rd",
      confirmPassword := "Passw0rd" }).mpr (by decide)
